import Mathlib

/-!
# Verification of the AcreBlitz gateway weather router

A shallow embedding of `gateway/python-service/routers/weather.py` and proofs
of the specified properties of its functions.

Modelling conventions:
* Python floats are modelled as exact rationals (`ℚ`); every concrete value
  appearing in a theorem below is exactly representable, so the rational
  arithmetic agrees with the float arithmetic of the source at those points.
* Python `round` (round half to even) is modelled by `pyRound`; the `"%.4f"`
  float formatting used for cache keys is modelled by `fmt4`, which rounds the
  scaled value half-to-even and renders four decimal digits.
* Each outbound HTTP interaction is modelled by a `FetchResult` value supplied
  by the environment: a parsed successful payload, a non-2xx response (on which
  `raise_for_status` raises `httpx.HTTPStatusError`), a network-level failure
  (`httpx.RequestError`), or a 2xx body that fails to parse into the expected
  shape (JSON/`KeyError`, i.e. a generic exception).
* The grid-point cache (a Python `dict`) is an association list with
  first-match lookup and in-place overwrite.
* Functions that perform outbound calls also return the number of outbound
  HTTP requests they issued, so that call-count properties can be stated.
-/

/-- Floor of a rational, computably (`Int` division by the positive
denominator). -/
def ratFloor (q : ℚ) : ℤ := q.num / (q.den : ℤ)

lemma ratFloor_eq (q : ℚ) : ratFloor q = ⌊q⌋ := Rat.floor_def.symm

/-- Python's built-in `round` to an integer: round half to even. -/
def pyRound (q : ℚ) : ℤ :=
  let f := ratFloor q
  if q - f < 1/2 then f
  else if 1/2 < q - f then f + 1
  else if f % 2 = 0 then f else f + 1

/-- `celsius_to_fahrenheit` from `weather.py`: `None`-safe conversion, using
Python `round`. -/
def celsius_to_fahrenheit : Option ℚ → Option ℤ
  | none => none
  | some celsius => some (pyRound (celsius * 9 / 5 + 32))

/-- Zero-pad a natural number below 10000 to four decimal digits. -/
def pad4 (n : ℕ) : String :=
  if n < 10 then "000" ++ toString n
  else if n < 100 then "00" ++ toString n
  else if n < 1000 then "0" ++ toString n
  else toString n

/-- Python `f"{q:.4f}"`: round the value to four decimal places
(half to even) and render it. -/
def fmt4 (q : ℚ) : String :=
  let n := pyRound (q * 10000)
  let a := n.natAbs
  (if q < 0 then "-" else "") ++ toString (a / 10000) ++ "." ++ pad4 (a % 10000)

/-- The cache key `f"{lat:.4f},{lon:.4f}"` from `get_grid_point`. -/
def cache_key (lat lon : ℚ) : String := fmt4 lat ++ "," ++ fmt4 lon

/-- Truncation (toward zero) of a rational to four decimal places, as an
integer count of ten-thousandths.  This follows the SPEC's words ("truncating
to 4 decimal places"), for comparison with the source's rounding `fmt4`. -/
def truncTo4 (q : ℚ) : ℤ :=
  if 0 ≤ q then ratFloor (q * 10000) else -ratFloor (-q * 10000)

/-- The cache key as described by the SPEC's words: both coordinates truncated
(toward zero) to four decimal places and rendered; for comparison with the
source's `cache_key`. -/
def trunc_cache_key (lat lon : ℚ) : String :=
  let f := fun q : ℚ =>
    (if q < 0 then "-" else "") ++ toString ((truncTo4 q).natAbs / 10000)
      ++ "." ++ pad4 ((truncTo4 q).natAbs % 10000)
  f lat ++ "," ++ f lon

/-- The grid-point record that `get_grid_point` builds from the upstream
"points" payload and stores in the cache. -/
structure GridPoint where
  gridId : String
  gridX : ℤ
  gridY : ℤ
  forecastHourly : String
  observationStations : String
  city : String
  state : String
deriving DecidableEq

/-- `properties.relativeLocation.properties` of the upstream "points"
payload. -/
structure RelLocProps where
  city : String
  state : String
deriving DecidableEq

/-- `properties` of the upstream "points" payload (the fields the source
reads). -/
structure PointsProps where
  gridId : String
  gridX : ℤ
  gridY : ℤ
  forecastHourly : String
  observationStations : String
  relativeLocation : RelLocProps
deriving DecidableEq

/-- The dictionary `get_grid_point` builds from the "points" payload. -/
def extractGridPoint (props : PointsProps) : GridPoint :=
  { gridId := props.gridId
    gridX := props.gridX
    gridY := props.gridY
    forecastHourly := props.forecastHourly
    observationStations := props.observationStations
    city := props.relativeLocation.city
    state := props.relativeLocation.state }

/-- An entry of `grid_point_cache`: `{"data": ..., "timestamp": ...}`. -/
structure CacheEntry where
  data : GridPoint
  timestamp : ℚ
deriving DecidableEq

/-- The `grid_point_cache` dict, as an association list. -/
abbrev Cache := List (String × CacheEntry)

/-- `dict.get`: first-match lookup. -/
def dictGet : Cache → String → Option CacheEntry
  | [], _ => none
  | (k, v) :: rest, key => if k = key then some v else dictGet rest key

/-- `dict[key] = value`: overwrite in place when the key is present, append
otherwise. -/
def dictSet (c : Cache) (key : String) (v : CacheEntry) : Cache :=
  if c.any (fun p => p.1 = key) then
    c.map (fun p => if p.1 = key then (key, v) else p)
  else c ++ [(key, v)]

/-- `GRID_CACHE_TTL = 24 * 60 * 60` seconds. -/
def GRID_CACHE_TTL : ℚ := 24 * 60 * 60

/-- The observable outcome of one outbound HTTP request, as supplied by the
environment. -/
inductive FetchResult (α : Type) where
  | success (v : α)
  | httpError (status : ℕ) (body : String)
  | netError (msg : String)
  | badPayload (msg : String)
deriving DecidableEq

/-- The Python exceptions the router distinguishes. -/
inductive PyErr where
  | httpStatusError (status : ℕ) (body : String)
  | requestError (msg : String)
  | otherError (msg : String)
deriving DecidableEq

/-- Issue a request and run `response.raise_for_status(); parse`: a non-2xx
response raises `httpx.HTTPStatusError`, a network failure raises
`httpx.RequestError`, and an unparseable 2xx body raises a generic
exception. -/
def fetchExcept {α : Type} : FetchResult α → Except PyErr α
  | .success v => .ok v
  | .httpError status body => .error (.httpStatusError status body)
  | .netError msg => .error (.requestError msg)
  | .badPayload msg => .error (.otherError msg)

/-- The fetch-and-cache branch of `get_grid_point` (taken on a cache miss or a
stale entry): one upstream "points" request; on success the extracted record is
stored under `key` with the current time and returned. -/
def grid_fetch (upstream : FetchResult PointsProps) (now : ℚ) (cache : Cache)
    (key : String) : Except PyErr GridPoint × Cache × ℕ :=
  match fetchExcept upstream with
  | .error e => (.error e, cache, 1)
  | .ok props =>
    let data := extractGridPoint props
    (.ok data, dictSet cache key ⟨data, now⟩, 1)

/-- `get_grid_point` from `weather.py`.  Returns the result (or the raised
exception), the cache after the call, and the number of outbound requests
issued (0 on a cache hit, 1 otherwise). -/
def get_grid_point (upstream : FetchResult PointsProps) (now : ℚ)
    (cache : Cache) (lat lon : ℚ) : Except PyErr GridPoint × Cache × ℕ :=
  let key := cache_key lat lon
  match dictGet cache key with
  | some cached =>
    if now - cached.timestamp < GRID_CACHE_TTL then (.ok cached.data, cache, 0)
    else grid_fetch upstream now cache key
  | none => grid_fetch upstream now cache key

/-- An upstream `{value: ...}` wrapper object; the wrapped value itself may be
null. -/
structure ValueBox where
  value : Option ℚ
deriving DecidableEq

/-- `period.get(k, {}).get("value")`: `none` when the wrapper object is absent
or its `value` is null. -/
def getValue : Option ValueBox → Option ℚ
  | none => none
  | some box => box.value

/-- One element of `properties.periods` of the upstream hourly-forecast
payload (the fields the source reads; the two wrapped fields are optional,
the rest are accessed with `[]` and hence required). -/
structure HourlyPeriod where
  startTime : String
  temperature : ℚ
  temperatureUnit : String
  probabilityOfPrecipitation : Option ValueBox
  relativeHumidity : Option ValueBox
  windSpeed : String
  windDirection : String
  icon : String
  shortForecast : String
  isDaytime : Bool
deriving DecidableEq

/-- The upstream hourly-forecast payload: `properties.periods`. -/
structure HourlyPayload where
  periods : List HourlyPeriod
deriving DecidableEq

/-- The per-period dictionary built by `get_hourly_forecast`. -/
structure ForecastPeriod where
  time : String
  temperature : ℚ
  temperatureUnit : String
  precipitationChance : Option ℚ
  relativeHumidity : Option ℚ
  windSpeed : String
  windDirection : String
  icon : String
  shortForecast : String
  isDaytime : Bool
deriving DecidableEq

/-- The comprehension body of `get_hourly_forecast`. -/
def transformPeriod (period : HourlyPeriod) : ForecastPeriod :=
  { time := period.startTime
    temperature := period.temperature
    temperatureUnit := period.temperatureUnit
    precipitationChance := getValue period.probabilityOfPrecipitation
    relativeHumidity := getValue period.relativeHumidity
    windSpeed := period.windSpeed
    windDirection := period.windDirection
    icon := period.icon
    shortForecast := period.shortForecast
    isDaytime := period.isDaytime }

/-- `get_hourly_forecast` from `weather.py`: one request, then one transformed
period per upstream period, in order. -/
def get_hourly_forecast (upstream : FetchResult HourlyPayload) :
    Except PyErr (List ForecastPeriod) :=
  match fetchExcept upstream with
  | .error e => .error e
  | .ok payload => .ok (payload.periods.map transformPeriod)

/-- One element of `features` of the upstream stations payload. -/
structure StationFeature where
  id : String
deriving DecidableEq

/-- The upstream observation-stations payload: `features`. -/
structure StationsPayload where
  features : List StationFeature
deriving DecidableEq

/-- `properties` of the upstream latest-observation payload (the fields the
source reads, all accessed with `.get`, hence all optional). -/
structure ObsProps where
  timestamp : Option String
  temperature : Option ValueBox
  textDescription : Option String
  icon : Option String
  relativeHumidity : Option ValueBox
  windSpeed : Option ValueBox
  windDirection : Option ValueBox
  barometricPressure : Option ValueBox
deriving DecidableEq

/-- The dictionary built by `get_current_conditions` on success. -/
structure CurrentConditions where
  timestamp : Option String
  temperature : Option ℤ
  temperatureUnit : String
  description : String
  icon : String
  humidity : Option ℚ
  windSpeed : Option ℚ
  windDirection : Option ℚ
  pressure : Option ℚ
deriving DecidableEq

/-- Python `x or default` on an optional string: the default is taken for a
missing/null value AND for an empty (falsy) string. -/
def pyOrString (x : Option String) (default : String) : String :=
  match x with
  | none => default
  | some s => if s = "" then default else s

/-- The record `get_current_conditions` builds from the observation
payload. -/
def buildConditions (props : ObsProps) : CurrentConditions :=
  { timestamp := props.timestamp
    temperature := celsius_to_fahrenheit (getValue props.temperature)
    temperatureUnit := "F"
    description := pyOrString props.textDescription "N/A"
    icon := pyOrString props.icon ""
    humidity := getValue props.relativeHumidity
    windSpeed := getValue props.windSpeed
    windDirection := getValue props.windDirection
    pressure := getValue props.barometricPressure }

/-- The `try` block of `get_current_conditions`: stations request, empty-list
check, then the latest-observation request for the first station.  Returns the
value or the exception about to escape the block, plus the number of outbound
requests issued. -/
def get_current_conditions_body (stationsRes : FetchResult StationsPayload)
    (obsRes : FetchResult ObsProps) :
    Except PyErr (Option CurrentConditions) × ℕ :=
  match fetchExcept stationsRes with
  | .error e => (.error e, 1)
  | .ok stationsPayload =>
    match stationsPayload.features with
    | [] => (.ok none, 1)
    | _ :: _ =>
      match fetchExcept obsRes with
      | .error e => (.error e, 2)
      | .ok props => (.ok (some (buildConditions props)), 2)

/-- `get_current_conditions` from `weather.py`: the `try` block with
`except Exception: return None` wrapped around it. -/
def get_current_conditions (stationsRes : FetchResult StationsPayload)
    (obsRes : FetchResult ObsProps) : Option CurrentConditions × ℕ :=
  match get_current_conditions_body stationsRes obsRes with
  | (.ok v, n) => (v, n)
  | (.error _, n) => (none, n)

/-- FastAPI's `HTTPException(status_code, detail)`. -/
structure HTTPException where
  status_code : ℕ
  detail : String
deriving DecidableEq

/-- The `except` clauses of `get_forecast`: `HTTPStatusError` keeps the
upstream status and body, `RequestError` becomes 503, anything else 500. -/
def translateErr : PyErr → HTTPException
  | .httpStatusError status body => ⟨status, "Weather API error: " ++ body⟩
  | .requestError msg => ⟨503, "Weather API unavailable: " ++ msg⟩
  | .otherError msg => ⟨500, "Failed to fetch weather: " ++ msg⟩

/-- `location` of the response body. -/
structure LocationInfo where
  city : String
  state : String
  gridId : String
  gridX : ℤ
  gridY : ℤ
deriving DecidableEq

/-- The response body assembled by `get_forecast`. -/
structure ForecastResponse where
  location : LocationInfo
  currentConditions : Option CurrentConditions
  hourlyForecast : List ForecastPeriod
  updated : String
deriving DecidableEq

/-- The outcomes of the (up to four) outbound requests of one
`GET /weather/forecast` handling, as supplied by the environment. -/
structure World where
  points : FetchResult PointsProps
  hourly : FetchResult HourlyPayload
  stations : FetchResult StationsPayload
  obs : FetchResult ObsProps

/-- The `get_forecast` handler body of `weather.py` (after query validation):
grid point, then hourly forecast, then current conditions; exceptions from the
first two are translated by the `except` clauses, the third never raises.
`nowIso` is the `datetime.utcnow().isoformat() + "Z"` string.  Returns the
response or the raised `HTTPException`, the cache after the call, and the
number of outbound requests issued. -/
def get_forecast (w : World) (now : ℚ) (nowIso : String) (cache : Cache)
    (lat lon : ℚ) : Except HTTPException ForecastResponse × Cache × ℕ :=
  match get_grid_point w.points now cache lat lon with
  | (.error e, cache1, n) => (.error (translateErr e), cache1, n)
  | (.ok gridPoint, cache1, n) =>
    match get_hourly_forecast w.hourly with
    | .error e => (.error (translateErr e), cache1, n + 1)
    | .ok hourlyForecast =>
      let (currentConditions, m) := get_current_conditions w.stations w.obs
      (.ok { location := ⟨gridPoint.city, gridPoint.state, gridPoint.gridId,
                          gridPoint.gridX, gridPoint.gridY⟩
             currentConditions := currentConditions
             hourlyForecast := hourlyForecast
             updated := nowIso },
       cache1, n + 1 + m)

/-- The full `GET /weather/forecast` operation.  Modelled from the spec: the
query-parameter bounds check (`ge=-90, le=90` on `lat`, `ge=-180, le=180` on
`lon` in the `Query` declarations) is enforced by the web framework before the
handler body runs; the framework's rejection response is not part of the
repository source, and the spec maps an out-of-range coordinate to a 400
ValidationError issued before any upstream request. -/
def forecast_endpoint (w : World) (now : ℚ) (nowIso : String) (cache : Cache)
    (lat lon : ℚ) : Except HTTPException ForecastResponse × Cache × ℕ :=
  if lat < -90 ∨ 90 < lat ∨ lon < -180 ∨ 180 < lon then
    (.error ⟨400, "Validation error: lat/lon out of range"⟩, cache, 0)
  else get_forecast w now nowIso cache lat lon

lemma dictGet_map_overwrite (c : Cache) (key : String) (v : CacheEntry)
    (h : c.any (fun p => p.1 = key) = true) :
    dictGet (c.map (fun p => if p.1 = key then (key, v) else p)) key = some v := by
  induction c with
  | nil => simp at h
  | cons p rest ih =>
    obtain ⟨k1, v1⟩ := p
    simp only [List.any_cons, Bool.or_eq_true, decide_eq_true_eq] at h
    by_cases hp : k1 = key
    · subst hp
      rw [List.map_cons, if_pos rfl]
      simp [dictGet]
    · have h' : rest.any (fun p => p.1 = key) = true := h.resolve_left hp
      rw [List.map_cons, if_neg hp]
      simpa [dictGet, hp] using ih h'

lemma dictGet_append_absent (c : Cache) (key : String) (v : CacheEntry)
    (h : c.any (fun p => p.1 = key) = false) :
    dictGet (c ++ [(key, v)]) key = some v := by
  induction c with
  | nil => simp [dictGet]
  | cons p rest ih =>
    obtain ⟨k1, v1⟩ := p
    simp only [List.any_cons, Bool.or_eq_false_iff, decide_eq_false_iff_not] at h
    simpa [dictGet, h.1] using ih h.2

/-- Looking up a key right after `dict[key] = value` yields that value. -/
lemma dictGet_dictSet_self (c : Cache) (key : String) (v : CacheEntry) :
    dictGet (dictSet c key v) key = some v := by
  unfold dictSet
  cases hb : c.any (fun p => p.1 = key) with
  | true => simpa [hb] using dictGet_map_overwrite c key v hb
  | false => simpa [hb] using dictGet_append_absent c key v hb

/-- A single `get_grid_point` call issues at most one outbound request. -/
lemma get_grid_point_calls_le_one (u : FetchResult PointsProps) (now : ℚ)
    (cache : Cache) (lat lon : ℚ) :
    (get_grid_point u now cache lat lon).2.2 ≤ 1 := by
  unfold get_grid_point grid_fetch
  cases hdg : dictGet cache (cache_key lat lon) with
  | none => cases u <;> simp [fetchExcept, hdg]
  | some e =>
    by_cases hfresh : now - e.timestamp < GRID_CACHE_TTL <;>
      cases u <;> simp [fetchExcept, hdg, hfresh]

lemma cache_key_one_two : cache_key (1 : ℚ) (2 : ℚ) = "1.0000,2.0000" := by
  have h1 : pyRound ((1 : ℚ) * 10000) = 10000 := by
    simp only [pyRound, ratFloor_eq]; norm_num
  have h2 : pyRound ((2 : ℚ) * 10000) = 20000 := by
    simp only [pyRound, ratFloor_eq]; norm_num
  simp only [cache_key, fmt4, h1, h2]
  norm_num [pad4]
  all_goals decide

lemma cache_key_nyc : cache_key (40.71290 : ℚ) (-74.00590 : ℚ) = "40.7129,-74.0059" := by
  have h1 : pyRound ((40.71290 : ℚ) * 10000) = 407129 := by
    simp only [pyRound, ratFloor_eq]; norm_num
  have h2 : pyRound ((-74.00590 : ℚ) * 10000) = -740059 := by
    simp only [pyRound, ratFloor_eq]; norm_num
  simp only [cache_key, fmt4, h1, h2]
  norm_num [pad4]
  all_goals decide

lemma cache_key_nyc' : cache_key (40.712904 : ℚ) (-74.005901 : ℚ) = "40.7129,-74.0059" := by
  have h1 : pyRound ((40.712904 : ℚ) * 10000) = 407129 := by
    simp only [pyRound, ratFloor_eq]; norm_num
  have h2 : pyRound ((-74.005901 : ℚ) * 10000) = -740059 := by
    simp only [pyRound, ratFloor_eq]; norm_num
  simp only [cache_key, fmt4, h1, h2]
  norm_num [pad4]
  all_goals decide

lemma cache_key_small : cache_key (0.00006 : ℚ) (0 : ℚ) = "0.0001,0.0000" := by
  have h1 : pyRound ((0.00006 : ℚ) * 10000) = 1 := by
    simp only [pyRound, ratFloor_eq]; norm_num
  have h2 : pyRound ((0 : ℚ) * 10000) = 0 := by
    simp only [pyRound, ratFloor_eq]; norm_num
  simp only [cache_key, fmt4, h1, h2]
  norm_num [pad4]
  all_goals decide

lemma trunc_cache_key_small : trunc_cache_key (0.00006 : ℚ) (0 : ℚ) = "0.0000,0.0000" := by
  have h1 : truncTo4 (0.00006 : ℚ) = 0 := by
    simp only [truncTo4, ratFloor_eq]; norm_num
  have h2 : truncTo4 (0 : ℚ) = 0 := by
    simp only [truncTo4, ratFloor_eq]; norm_num
  simp only [trunc_cache_key, h1, h2]
  norm_num [pad4]
  all_goals decide

/-- A concrete "points" payload used in witnesses. -/
def samplePoints : PointsProps :=
  ⟨"TOP", 31, 80, "https://hourly", "https://stations", ⟨"Topeka", "KS"⟩⟩

/-- The grid-point record extracted from `samplePoints`. -/
def sampleGridPoint : GridPoint := extractGridPoint samplePoints

/-- A concrete cache entry used in witnesses. -/
def sampleEntry : CacheEntry := ⟨sampleGridPoint, 1000⟩

/-- A concrete hourly period whose precipitation container is absent. -/
def samplePeriod : HourlyPeriod :=
  ⟨"2026-01-01T00:00:00Z", 10, "F", none, some ⟨some 40⟩, "5 mph", "NW",
   "icon-url", "Sunny", true⟩

/-- A concrete observation payload with present-but-empty description and
icon. -/
def sampleObs : ObsProps :=
  ⟨some "2026-01-01T00:00:00Z", some ⟨some 20⟩, some "", some "",
   some ⟨some 50⟩, none, none, none⟩

/-- A concrete environment: "points" and hourly succeed, the stations list is
empty (so the observation outcome is never consulted). -/
def sampleWorld : World :=
  ⟨.success samplePoints, .success ⟨[samplePeriod]⟩, .success ⟨[]⟩,
   .netError "unused"⟩

/-- A concrete environment whose hourly-forecast fetch returns HTTP 503. -/
def errorWorld : World :=
  ⟨.success samplePoints, .httpError 503 "Service Unavailable", .success ⟨[]⟩,
   .netError "unused"⟩

lemma dictGet_singleton (k : String) (v : CacheEntry) : dictGet [(k, v)] k = some v := by
  simp [dictGet]

/-- C5: `celsius_to_fahrenheit` computes `round(celsius * 9/5 + 32)` (Python
rounding) for every non-null input and returns null for null input; in
particular it maps 0 to 32, 100 to 212 and 20.0 to 68. -/
theorem celsius_to_fahrenheit_spec :
    celsius_to_fahrenheit none = none
    ∧ (∀ c : ℚ, celsius_to_fahrenheit (some c) = some (pyRound (c * 9 / 5 + 32)))
    ∧ celsius_to_fahrenheit (some 0) = some 32
    ∧ celsius_to_fahrenheit (some 100) = some 212
    ∧ celsius_to_fahrenheit (some 20) = some 68 := by
  refine ⟨rfl, fun c => rfl, ?_, ?_, ?_⟩ <;>
    · simp only [celsius_to_fahrenheit, pyRound, ratFloor_eq, Option.some.injEq]
      norm_num

/-- C10: an exact half-integer Fahrenheit result is resolved by rounding to
the nearest even integer (banker's rounding), so the result is always even
there. -/
theorem celsius_to_fahrenheit_half_to_even :
    ∀ (c : ℚ) (n : ℤ), c * 9 / 5 + 32 = (n : ℚ) + 1/2 →
      celsius_to_fahrenheit (some c) = some (if n % 2 = 0 then n else n + 1)
      ∧ (if n % 2 = 0 then n else n + 1) % 2 = 0 := by
  intro c n h
  constructor
  · simp only [celsius_to_fahrenheit, Option.some.injEq]
    rw [h]
    simp only [pyRound, ratFloor_eq]
    have hf : ⌊(n : ℚ) + 1/2⌋ = n := by
      rw [add_comm, Int.floor_add_int]
      norm_num
    rw [hf]
    have hfrac : (n : ℚ) + 1/2 - (n : ℚ) = 1/2 := by ring
    rw [hfrac]
    norm_num
  · by_cases hpar : n % 2 = 0
    · simp [hpar]
    · simp only [hpar, if_false]
      omega

/-- Witness for C10 at 2.5 °C (36.5 °F rounds down to even 36) and 7.5 °C
(45.5 °F rounds up to even 46). -/
theorem celsius_to_fahrenheit_half_to_even_witness :
    celsius_to_fahrenheit (some (5/2)) = some 36
    ∧ celsius_to_fahrenheit (some (15/2)) = some 46 := by
  constructor
  · have h := (celsius_to_fahrenheit_half_to_even (5/2) 36 (by norm_num)).1
    norm_num at h
    exact h
  · have h := (celsius_to_fahrenheit_half_to_even (15/2) 45 (by norm_num)).1
    norm_num at h
    exact h

/-- C8: on a successful upstream payload, `get_hourly_forecast` returns
exactly one transformed period per upstream period, in upstream order (a plain
`List.map`: no filtering, sorting or deduplication), and the two wrapped
optional fields are read from their `{value}` containers, null when the
container or its value is absent. -/
theorem get_hourly_forecast_spec :
    (∀ payload : HourlyPayload,
        get_hourly_forecast (.success payload)
          = .ok (payload.periods.map transformPeriod))
    ∧ (∀ payload : HourlyPayload,
        (payload.periods.map transformPeriod).length = payload.periods.length)
    ∧ (∀ p : HourlyPeriod, p.probabilityOfPrecipitation = none →
        (transformPeriod p).precipitationChance = none)
    ∧ (∀ (p : HourlyPeriod) (box : ValueBox),
        p.probabilityOfPrecipitation = some box →
        (transformPeriod p).precipitationChance = box.value)
    ∧ (∀ p : HourlyPeriod, p.relativeHumidity = none →
        (transformPeriod p).relativeHumidity = none)
    ∧ (∀ (p : HourlyPeriod) (box : ValueBox), p.relativeHumidity = some box →
        (transformPeriod p).relativeHumidity = box.value) := by
  refine ⟨fun _ => rfl, fun _ => by simp, ?_, ?_, ?_, ?_⟩
  · intro p h; simp [transformPeriod, getValue, h]
  · intro p box h; simp [transformPeriod, getValue, h]
  · intro p h; simp [transformPeriod, getValue, h]
  · intro p box h; simp [transformPeriod, getValue, h]

/-- Witness for C8: an absent precipitation container yields a null
`precipitationChance`, and a one-period payload maps to its one transform. -/
theorem get_hourly_forecast_spec_witness :
    (transformPeriod samplePeriod).precipitationChance = none
    ∧ get_hourly_forecast (.success ⟨[samplePeriod]⟩)
        = .ok [transformPeriod samplePeriod] :=
  ⟨get_hourly_forecast_spec.2.2.1 samplePeriod rfl,
   get_hourly_forecast_spec.1 ⟨[samplePeriod]⟩⟩

/-- C9: the description/icon defaults of `get_current_conditions` use Python
truthiness: a present-but-empty `textDescription` becomes `"N/A"` and a
present-but-empty `icon` becomes `""`. -/
theorem current_conditions_truthy_defaults :
    ∀ (st : StationFeature) (rest : List StationFeature) (props : ObsProps),
      props.textDescription = some "" →
      props.icon = some "" →
      (get_current_conditions (.success ⟨st :: rest⟩) (.success props)).1
        = some (buildConditions props)
      ∧ (buildConditions props).description = "N/A"
      ∧ (buildConditions props).icon = "" := by
  intro st rest props hdesc hicon
  refine ⟨rfl, ?_, ?_⟩
  · simp [buildConditions, pyOrString, hdesc]
  · simp [buildConditions, pyOrString, hicon]

/-- Witness for C9 at a concrete observation payload with empty description
and icon fields. -/
theorem current_conditions_truthy_defaults_witness :
    (get_current_conditions (.success ⟨[⟨"stn-1"⟩]⟩) (.success sampleObs)).1
      = some (buildConditions sampleObs)
    ∧ (buildConditions sampleObs).description = "N/A"
    ∧ (buildConditions sampleObs).icon = "" :=
  current_conditions_truthy_defaults ⟨"stn-1"⟩ [] sampleObs rfl rfl

/-- C2: `get_current_conditions` never propagates an error: every failing
outcome of its sub-calls (stations HTTP error, network error, malformed
payload; empty station list; observation HTTP error, network error, malformed
payload) yields `none`, and with an empty stations list the whole forecast
operation still succeeds, carrying `none` current conditions and the hourly
forecast. -/
theorem get_current_conditions_never_raises :
    (∀ (status : ℕ) (body : String) (obsRes : FetchResult ObsProps),
        (get_current_conditions (.httpError status body) obsRes).1 = none)
    ∧ (∀ (msg : String) (obsRes : FetchResult ObsProps),
        (get_current_conditions (.netError msg) obsRes).1 = none)
    ∧ (∀ (msg : String) (obsRes : FetchResult ObsProps),
        (get_current_conditions (.badPayload msg) obsRes).1 = none)
    ∧ (∀ obsRes : FetchResult ObsProps,
        (get_current_conditions (.success ⟨[]⟩) obsRes).1 = none)
    ∧ (∀ (sp : StationsPayload) (status : ℕ) (body : String),
        (get_current_conditions (.success sp) (.httpError status body)).1 = none)
    ∧ (∀ (sp : StationsPayload) (msg : String),
        (get_current_conditions (.success sp) (.netError msg)).1 = none)
    ∧ (∀ (sp : StationsPayload) (msg : String),
        (get_current_conditions (.success sp) (.badPayload msg)).1 = none)
    ∧ (∀ (w : World) (now : ℚ) (nowIso : String) (cache : Cache) (lat lon : ℚ)
        (gp : GridPoint) (hf : List ForecastPeriod),
        (get_grid_point w.points now cache lat lon).1 = .ok gp →
        get_hourly_forecast w.hourly = .ok hf →
        w.stations = .success ⟨[]⟩ →
        (get_forecast w now nowIso cache lat lon).1
          = .ok ⟨⟨gp.city, gp.state, gp.gridId, gp.gridX, gp.gridY⟩,
                 none, hf, nowIso⟩) := by
  refine ⟨fun _ _ _ => rfl, fun _ _ => rfl, fun _ _ => rfl, fun _ => rfl,
          ?_, ?_, ?_, ?_⟩
  · intro sp status body
    obtain ⟨features⟩ := sp
    cases features <;> rfl
  · intro sp msg
    obtain ⟨features⟩ := sp
    cases features <;> rfl
  · intro sp msg
    obtain ⟨features⟩ := sp
    cases features <;> rfl
  · intro w now nowIso cache lat lon gp hf hgp hhf hstations
    rcases hg : get_grid_point w.points now cache lat lon with ⟨r, cache1, n⟩
    have hr : r = .ok gp := by rw [hg] at hgp; exact hgp
    subst hr
    simp [get_forecast, hg, hhf, hstations, get_current_conditions,
          get_current_conditions_body, fetchExcept]

/-- Witness for C2: with an empty stations list the forecast succeeds, the
current conditions are `none`, and the hourly forecast is present. -/
theorem get_current_conditions_never_raises_witness :
    (get_forecast sampleWorld 0 "2026-01-01T00:00:00Z" [] 1 2).1
      = .ok ⟨⟨"Topeka", "KS", "TOP", 31, 80⟩, none,
             [transformPeriod samplePeriod], "2026-01-01T00:00:00Z"⟩ :=
  get_current_conditions_never_raises.2.2.2.2.2.2.2 sampleWorld 0
    "2026-01-01T00:00:00Z" [] 1 2 sampleGridPoint
    [transformPeriod samplePeriod] rfl rfl rfl

/-- C3: out-of-range coordinates are rejected with a 400 validation error
before any outbound request is issued (the request count is 0 and the cache is
untouched). -/
theorem forecast_endpoint_validation :
    ∀ (w : World) (now : ℚ) (nowIso : String) (cache : Cache) (lat lon : ℚ),
      (lat < -90 ∨ 90 < lat ∨ lon < -180 ∨ 180 < lon) →
      forecast_endpoint w now nowIso cache lat lon
        = (.error ⟨400, "Validation error: lat/lon out of range"⟩, cache, 0) := by
  intro w now nowIso cache lat lon h
  simp [forecast_endpoint, h]

/-- Witness for C3 at latitude 91. -/
theorem forecast_endpoint_validation_witness :
    forecast_endpoint sampleWorld 0 "iso" [] 91 0
      = (.error ⟨400, "Validation error: lat/lon out of range"⟩, [], 0) :=
  forecast_endpoint_validation sampleWorld 0 "iso" [] 91 0
    (Or.inr (Or.inl (by norm_num)))

/-- C4: a non-2xx upstream response from the grid-point fetch or the
hourly-forecast fetch fails the whole operation with the upstream's status
code and the upstream body text in the detail. -/
theorem get_forecast_propagates_http_error :
    (∀ (w : World) (now : ℚ) (nowIso : String) (cache : Cache) (lat lon : ℚ)
        (status : ℕ) (body : String),
        (get_grid_point w.points now cache lat lon).1
          = .error (.httpStatusError status body) →
        (get_forecast w now nowIso cache lat lon).1
          = .error ⟨status, "Weather API error: " ++ body⟩)
    ∧ (∀ (w : World) (now : ℚ) (nowIso : String) (cache : Cache) (lat lon : ℚ)
        (gp : GridPoint) (status : ℕ) (body : String),
        (get_grid_point w.points now cache lat lon).1 = .ok gp →
        w.hourly = .httpError status body →
        (get_forecast w now nowIso cache lat lon).1
          = .error ⟨status, "Weather API error: " ++ body⟩) := by
  constructor
  · intro w now nowIso cache lat lon status body hgp
    rcases hg : get_grid_point w.points now cache lat lon with ⟨r, cache1, n⟩
    have hr : r = .error (.httpStatusError status body) := by
      rw [hg] at hgp; exact hgp
    subst hr
    simp [get_forecast, hg, translateErr]
  · intro w now nowIso cache lat lon gp status body hgp hh
    rcases hg : get_grid_point w.points now cache lat lon with ⟨r, cache1, n⟩
    have hr : r = .ok gp := by rw [hg] at hgp; exact hgp
    subst hr
    simp [get_forecast, hg, hh, get_hourly_forecast, fetchExcept, translateErr]

/-- Witness for C4: an HTTP 503 with body "Service Unavailable" from the
hourly-forecast fetch surfaces as a 503 whose detail carries the body. -/
theorem get_forecast_propagates_http_error_witness :
    (get_forecast errorWorld 0 "iso" [] 1 2).1
      = .error ⟨503, "Weather API error: Service Unavailable"⟩ :=
  get_forecast_propagates_http_error.2 errorWorld 0 "iso" [] 1 2
    sampleGridPoint 503 "Service Unavailable" rfl rfl

/-- When no fresh entry is cached, `get_grid_point` takes the fetch branch. -/
lemma get_grid_point_eq_fetch (u : FetchResult PointsProps) (t : ℚ)
    (cache : Cache) (lat lon : ℚ)
    (h : ¬ ∃ e, dictGet cache (cache_key lat lon) = some e
          ∧ t - e.timestamp < GRID_CACHE_TTL) :
    get_grid_point u t cache lat lon = grid_fetch u t cache (cache_key lat lon) := by
  cases hdg : dictGet cache (cache_key lat lon) with
  | none => simp [get_grid_point, hdg]
  | some e =>
    have hfresh : ¬ t - e.timestamp < GRID_CACHE_TTL := fun hf => h ⟨e, hdg, hf⟩
    simp [get_grid_point, hdg, hfresh]

/-- A call made within the TTL after a successful fetch-and-store is a pure
cache hit on the stored entry. -/
lemma grid_miss_then_hit (u2 : FetchResult PointsProps) (t1 t2 : ℚ)
    (cache : Cache) (lat lon : ℚ) (props : PointsProps)
    (hwin : t2 - t1 < GRID_CACHE_TTL) :
    get_grid_point u2 t2
        (dictSet cache (cache_key lat lon) ⟨extractGridPoint props, t1⟩) lat lon
      = (.ok (extractGridPoint props),
         dictSet cache (cache_key lat lon) ⟨extractGridPoint props, t1⟩, 0) := by
  have hget := dictGet_dictSet_self cache (cache_key lat lon)
    ⟨extractGridPoint props, t1⟩
  simp [get_grid_point, hget, hwin]

/-- C1: a cache entry younger than 24h is served as-is with no outbound
request and no cache change; consequently two calls within 24h of each other
(threading the cache, the first succeeding) issue at most one upstream
"points" request between them. -/
theorem get_grid_point_cache_hit :
    (∀ (u : FetchResult PointsProps) (now : ℚ) (cache : Cache) (lat lon : ℚ)
        (e : CacheEntry),
        dictGet cache (cache_key lat lon) = some e →
        now - e.timestamp < GRID_CACHE_TTL →
        get_grid_point u now cache lat lon = (.ok e.data, cache, 0))
    ∧ (∀ (u1 u2 : FetchResult PointsProps) (t1 t2 : ℚ) (cache : Cache)
        (lat lon : ℚ) (g : GridPoint),
        t1 ≤ t2 → t2 - t1 < GRID_CACHE_TTL →
        (get_grid_point u1 t1 cache lat lon).1 = .ok g →
        (get_grid_point u1 t1 cache lat lon).2.2
          + (get_grid_point u2 t2 (get_grid_point u1 t1 cache lat lon).2.1
              lat lon).2.2
          ≤ 1) := by
  constructor
  · intro u now cache lat lon e hdg hfresh
    simp [get_grid_point, hdg, hfresh]
  · intro u1 u2 t1 t2 cache lat lon g hle hwin hok
    by_cases hhit : ∃ e, dictGet cache (cache_key lat lon) = some e
        ∧ t1 - e.timestamp < GRID_CACHE_TTL
    · obtain ⟨e, hdg, hfresh⟩ := hhit
      have h1 : get_grid_point u1 t1 cache lat lon = (.ok e.data, cache, 0) := by
        simp [get_grid_point, hdg, hfresh]
      rw [h1]
      simpa using get_grid_point_calls_le_one u2 t2 cache lat lon
    · have h1 : get_grid_point u1 t1 cache lat lon
          = grid_fetch u1 t1 cache (cache_key lat lon) :=
        get_grid_point_eq_fetch u1 t1 cache lat lon hhit
      cases u1 with
      | success props =>
        have h1' : get_grid_point (.success props) t1 cache lat lon
            = (.ok (extractGridPoint props),
               dictSet cache (cache_key lat lon) ⟨extractGridPoint props, t1⟩,
               1) := by
          rw [h1]; simp [grid_fetch, fetchExcept]
        rw [h1']
        rw [show ((Except.ok (extractGridPoint props) :
              Except PyErr GridPoint),
            dictSet cache (cache_key lat lon) ⟨extractGridPoint props, t1⟩,
            1).2.1
          = dictSet cache (cache_key lat lon) ⟨extractGridPoint props, t1⟩
          from rfl]
        rw [grid_miss_then_hit u2 t1 t2 cache lat lon props hwin]
        simp
      | httpError status body =>
        rw [h1] at hok
        simp [grid_fetch, fetchExcept] at hok
      | netError msg =>
        rw [h1] at hok
        simp [grid_fetch, fetchExcept] at hok
      | badPayload msg =>
        rw [h1] at hok
        simp [grid_fetch, fetchExcept] at hok

/-- Witness for C1: a 1000-second-old entry is served from cache with zero
outbound requests even though the upstream is down. -/
theorem get_grid_point_cache_hit_witness :
    get_grid_point (.netError "down") 2000 [("1.0000,2.0000", sampleEntry)] 1 2
      = (.ok sampleGridPoint, [("1.0000,2.0000", sampleEntry)], 0) :=
  get_grid_point_cache_hit.1 (.netError "down") 2000
    [("1.0000,2.0000", sampleEntry)] 1 2 sampleEntry
    (by rw [cache_key_one_two]; exact dictGet_singleton _ _)
    (by norm_num [sampleEntry, GRID_CACHE_TTL])

/-- C6: with the entry absent or at least 24h old, `get_grid_point` issues
exactly one upstream request, and on success the cache entry for the key is
replaced wholesale by the fetched record with the current timestamp,
overwriting any prior entry. -/
theorem get_grid_point_refresh :
    ∀ (u : FetchResult PointsProps) (now : ℚ) (cache : Cache) (lat lon : ℚ),
      (dictGet cache (cache_key lat lon) = none ∨
        (∃ e, dictGet cache (cache_key lat lon) = some e ∧
          GRID_CACHE_TTL ≤ now - e.timestamp)) →
      (get_grid_point u now cache lat lon).2.2 = 1
      ∧ (∀ props, u = .success props →
          get_grid_point u now cache lat lon
            = (.ok (extractGridPoint props),
               dictSet cache (cache_key lat lon) ⟨extractGridPoint props, now⟩,
               1)
          ∧ dictGet (get_grid_point u now cache lat lon).2.1 (cache_key lat lon)
              = some ⟨extractGridPoint props, now⟩) := by
  intro u now cache lat lon hstale
  have hmiss : ¬ ∃ e, dictGet cache (cache_key lat lon) = some e
      ∧ now - e.timestamp < GRID_CACHE_TTL := by
    rcases hstale with h | ⟨e, he, hage⟩
    · rintro ⟨e, he, _⟩
      rw [h] at he
      exact Option.noConfusion he
    · rintro ⟨e', he', hfresh⟩
      have hee : e = e' := Option.some.inj (he.symm.trans he')
      rw [← hee] at hfresh
      linarith
  have h1 : get_grid_point u now cache lat lon
      = grid_fetch u now cache (cache_key lat lon) :=
    get_grid_point_eq_fetch u now cache lat lon hmiss
  constructor
  · rw [h1]
    cases u <;> simp [grid_fetch, fetchExcept]
  · intro props hu
    subst hu
    have h2 : get_grid_point (.success props) now cache lat lon
        = (.ok (extractGridPoint props),
           dictSet cache (cache_key lat lon) ⟨extractGridPoint props, now⟩,
           1) := by
      rw [h1]; simp [grid_fetch, fetchExcept]
    refine ⟨h2, ?_⟩
    rw [h2]
    exact dictGet_dictSet_self cache (cache_key lat lon)
      ⟨extractGridPoint props, now⟩

/-- Witness for C6: a miss on the empty cache fetches once and stores the
result under the coordinate key with the current time. -/
theorem get_grid_point_refresh_witness :
    get_grid_point (.success samplePoints) 0 [] 1 2
      = (.ok sampleGridPoint, [("1.0000,2.0000", ⟨sampleGridPoint, 0⟩)], 1) := by
  have h := (get_grid_point_refresh (.success samplePoints) 0 [] 1 2
    (Or.inl rfl)).2 samplePoints rfl
  rw [h.1]
  simp [dictSet, cache_key_one_two, sampleGridPoint]

/-- C7 counterexample: the cache key is NOT built by truncating to four
decimal places — at coordinates (0.00006, 0) the source key (built with
rounding `"%.4f"` formatting) is "0.0001,0.0000", while truncation yields
"0.0000,0.0000". -/
theorem cache_key_not_truncation :
    cache_key (0.00006 : ℚ) 0 ≠ trunc_cache_key (0.00006 : ℚ) 0 := by
  rw [cache_key_small, trunc_cache_key_small]
  decide

/-- C7 amended: the cache key is built by ROUNDING (Python `"%.4f"`
formatting, half to even) to four decimal places, formatted
`"<lat>,<lon>"`; the coordinates (40.71290, -74.00590) and
(40.712904, -74.005901) still produce the same key "40.7129,-74.0059" and
hence hit the same cache entry in any cache state. -/
theorem cache_key_rounding_collision :
    cache_key (40.71290 : ℚ) (-74.00590 : ℚ)
      = cache_key (40.712904 : ℚ) (-74.005901 : ℚ)
    ∧ cache_key (40.71290 : ℚ) (-74.00590 : ℚ) = "40.7129,-74.0059"
    ∧ ∀ cache : Cache,
        dictGet cache (cache_key (40.71290 : ℚ) (-74.00590 : ℚ))
          = dictGet cache (cache_key (40.712904 : ℚ) (-74.005901 : ℚ)) :=
  ⟨by rw [cache_key_nyc, cache_key_nyc'], cache_key_nyc,
   fun cache => by rw [cache_key_nyc, cache_key_nyc']⟩
